import Mathlib

/-!
# Verification of the backoff-calculator core (`src/backoff.js`)

A shallow embedding of the pure computation core of the backoff calculator:
the configuration validator, the schedule generator, the schedule summary
reducer and the chart-math explanation builder.

JavaScript numbers are modelled as `JSNumber` (a finite rational, `NaN`, or a
signed infinity); the loosely-typed JavaScript values that configuration
fields may hold are modelled as `JVal` (undefined, null, number, string or
boolean).  Finite numeric arithmetic is carried out over `ℚ`.  Functions that
`throw` in JavaScript are modelled with `Except String`.
-/

/-- A JavaScript number: a finite value (modelled as a rational), `NaN`, or a
signed infinity. -/
inductive JSNumber where
  | fin (q : ℚ)
  | nan
  | posInf
  | negInf
deriving DecidableEq, Repr

/-- A loosely-typed JavaScript value as it may appear in a configuration
field: `undefined` (absent field), `null`, a number, a string or a
boolean. -/
inductive JVal where
  | undef
  | null
  | num (x : JSNumber)
  | str (s : String)
  | bool (b : Bool)
deriving DecidableEq, Repr

/-- `isFiniteNumber` from the source: `typeof value === "number" &&
Number.isFinite(value)`. -/
def isFiniteNumber : JVal → Bool
  | .num (.fin _) => true
  | _ => false

/-- `Number.isInteger(value)`: a finite number with integral value. -/
def isIntegerNumber : JVal → Bool
  | .num (.fin q) => q.den == 1
  | _ => false

/-- The rational carried by a finite number, `0` on any other value.  Only
applied where a finiteness check has already succeeded, so the junk default
is never observable. -/
def finVal : JVal → ℚ
  | .num (.fin q) => q
  | _ => 0

/-- JavaScript loose equality with `null` (`value == null`): true exactly on
`null` and `undefined`. -/
def isNullish : JVal → Bool
  | .null => true
  | .undef => true
  | _ => false

/-- The natural number carried by a finite non-negative integral number
(junk `0` otherwise); used to read the validated `maxRetries` field. -/
def toNatVal (v : JVal) : ℕ := (finVal v).num.toNat

/-- Upper bound on `maxRetries` (`MAX_RETRIES_LIMIT` in the source). -/
def MAX_RETRIES_LIMIT : ℕ := 1000

/-- The `BackoffConfig` object.  Every field holds an arbitrary JavaScript
value; an absent field is `JVal.undef`. -/
structure BackoffConfig where
  strategy : JVal
  initialDelayMs : JVal
  maxRetries : JVal
  maxDelayMs : JVal
  factor : JVal
  incrementMs : JVal
  jitter : JVal
deriving DecidableEq, Repr

/-- A field-tagged validation error. -/
structure ValidationError where
  field : String
  message : String
deriving DecidableEq, Repr

/-- `isJitterType` from the source: the value is one of the three jitter
strings. -/
def isJitterType (value : JVal) : Bool :=
  decide (value = JVal.str "none" ∨ value = JVal.str "equal" ∨ value = JVal.str "full")

/-- The resolved jitter type used by the computation after normalization. -/
inductive JitterType where
  | none
  | equal
  | full
deriving DecidableEq, Repr

/-- `DEFAULT_JITTER_TYPE = "none"`. -/
def DEFAULT_JITTER_TYPE : JitterType := JitterType.none

/-- `resolveJitterType` from the source: a recognized jitter string resolves
to itself, anything else falls back to the default. -/
def resolveJitterType (value : JVal) : JitterType :=
  if value = JVal.str "none" then JitterType.none
  else if value = JVal.str "equal" then JitterType.equal
  else if value = JVal.str "full" then JitterType.full
  else DEFAULT_JITTER_TYPE

/-- `validateConfig` from the source, as the ordered concatenation of its
conditional `errors.push` calls.  (The source's leading `config == null ||
typeof config !== "object"` early return is outside the model: a
`BackoffConfig` structure is always an object.)  Each numeric comparison in
the source is short-circuit guarded by a finiteness/integrality check, so
reading the guarded value with `finVal` is exact. -/
def validateConfig (config : BackoffConfig) : List ValidationError :=
  (if config.strategy ≠ JVal.str "exponential" ∧ config.strategy ≠ JVal.str "linear" ∧
      config.strategy ≠ JVal.str "fixed" then
    [⟨"strategy", "Must be exponential, linear, or fixed."⟩] else []) ++
  (if ¬ isFiniteNumber config.initialDelayMs ∨ finVal config.initialDelayMs < 0 then
    [⟨"initialDelayMs", "Must be >= 0."⟩] else []) ++
  (if ¬ isIntegerNumber config.maxRetries ∨ finVal config.maxRetries < 0 ∨
      finVal config.maxRetries > (MAX_RETRIES_LIMIT : ℚ) then
    [⟨"maxRetries", "Must be an integer between 0 and 1000."⟩] else []) ++
  (if config.maxDelayMs ≠ JVal.null ∧
      (¬ isFiniteNumber config.maxDelayMs ∨ finVal config.maxDelayMs < 0) then
    [⟨"maxDelayMs", "Must be >= 0 or blank."⟩] else []) ++
  (if config.strategy = JVal.str "exponential" ∧
      (¬ isFiniteNumber config.factor ∨ finVal config.factor ≤ 1) then
    [⟨"factor", "Must be > 1."⟩] else []) ++
  (if config.strategy = JVal.str "linear" ∧
      (¬ isFiniteNumber config.incrementMs ∨ finVal config.incrementMs < 0) then
    [⟨"incrementMs", "Must be >= 0."⟩] else []) ++
  (if config.jitter ≠ JVal.undef ∧ ¬ isJitterType config.jitter then
    [⟨"jitter", "Must be none, equal, or full."⟩] else [])

/-- The `{minDelayMs, expectedDelayMs, maxDelayMs}` record returned by
`toDelayRange`. -/
structure DelayRange where
  minDelayMs : ℚ
  expectedDelayMs : ℚ
  maxDelayMs : ℚ
deriving DecidableEq, Repr

/-- `toDelayRange` from the source: the deterministic jitter bounds derived
from the capped delay. -/
def toDelayRange (cappedDelayMs : ℚ) (jitterType : JitterType) : DelayRange :=
  if jitterType = JitterType.equal then
    { minDelayMs := cappedDelayMs / 2
      expectedDelayMs := cappedDelayMs * (0.75 : ℚ)
      maxDelayMs := cappedDelayMs }
  else if jitterType = JitterType.full then
    { minDelayMs := 0
      expectedDelayMs := cappedDelayMs / 2
      maxDelayMs := cappedDelayMs }
  else
    { minDelayMs := cappedDelayMs
      expectedDelayMs := cappedDelayMs
      maxDelayMs := cappedDelayMs }

/-- One row of the generated schedule (`RetryPoint`). -/
structure RetryPoint where
  retry : ℕ
  rawDelayMs : ℚ
  minDelayMs : ℚ
  expectedDelayMs : ℚ
  maxDelayMs : ℚ
  delayMs : ℚ
  cumulativeDelayMs : ℚ
  cumulativeMinDelayMs : ℚ
  cumulativeMaxDelayMs : ℚ
deriving DecidableEq, Repr

/-- The per-retry raw delay computed inline by the loop body of
`generateSchedule` (for `retry ≥ 1`). -/
def loopRawDelay (config : BackoffConfig) (retry : ℕ) : ℚ :=
  if config.strategy = JVal.str "exponential" then
    finVal config.initialDelayMs * finVal config.factor ^ (retry - 1)
  else if config.strategy = JVal.str "linear" then
    finVal config.initialDelayMs + ((retry - 1 : ℕ) : ℚ) * finVal config.incrementMs
  else
    finVal config.initialDelayMs

/-- The per-retry capped delay computed inline by the loop body of
`generateSchedule`: `config.maxDelayMs == null ? rawDelayMs :
Math.min(rawDelayMs, config.maxDelayMs)` (loose `== null`). -/
def loopCappedDelay (config : BackoffConfig) (retry : ℕ) : ℚ :=
  if isNullish config.maxDelayMs then loopRawDelay config retry
  else min (loopRawDelay config retry) (finVal config.maxDelayMs)

/-- The loop of `generateSchedule`: `count` remaining iterations, current
1-based `retry` index, and the three running cumulative sums. -/
def buildSchedule (config : BackoffConfig) (jitterType : JitterType) :
    ℕ → ℕ → ℚ → ℚ → ℚ → List RetryPoint
  | 0, _, _, _, _ => []
  | count + 1, retry, cumulativeDelayMs, cumulativeMinDelayMs, cumulativeMaxDelayMs =>
    let rawDelayMs := loopRawDelay config retry
    let cappedDelayMs := loopCappedDelay config retry
    let range := toDelayRange cappedDelayMs jitterType
    let delayMs := range.expectedDelayMs
    let cumulativeDelayMs' := cumulativeDelayMs + delayMs
    let cumulativeMinDelayMs' := cumulativeMinDelayMs + range.minDelayMs
    let cumulativeMaxDelayMs' := cumulativeMaxDelayMs + range.maxDelayMs
    { retry := retry
      rawDelayMs := rawDelayMs
      minDelayMs := range.minDelayMs
      expectedDelayMs := range.expectedDelayMs
      maxDelayMs := range.maxDelayMs
      delayMs := delayMs
      cumulativeDelayMs := cumulativeDelayMs'
      cumulativeMinDelayMs := cumulativeMinDelayMs'
      cumulativeMaxDelayMs := cumulativeMaxDelayMs' } ::
      buildSchedule config jitterType count (retry + 1)
        cumulativeDelayMs' cumulativeMinDelayMs' cumulativeMaxDelayMs'

/-- The concatenated validation messages, joined with a space, as interpolated
into the thrown error message. -/
def joinMessages (errors : List ValidationError) : String :=
  String.intercalate " " (errors.map (·.message))

/-- `generateSchedule` from the source.  A thrown `Error` is modelled as
`Except.error` carrying the message. -/
def generateSchedule (config : BackoffConfig) : Except String (List RetryPoint) :=
  let errors := validateConfig config
  if errors.length > 0 then
    Except.error ("Invalid configuration: " ++ joinMessages errors)
  else
    Except.ok
      (buildSchedule config (resolveJitterType config.jitter) (toNatVal config.maxRetries) 1 0 0 0)

/-- `rawDelayAtRetry` from the source: the per-strategy raw-delay formula,
defined separately from `generateSchedule`'s inline copy (the explanation
builder recomputes from this helper). -/
def rawDelayAtRetry (config : BackoffConfig) (retry : ℕ) : ℚ :=
  if config.strategy = JVal.str "exponential" then
    finVal config.initialDelayMs * finVal config.factor ^ (retry - 1)
  else if config.strategy = JVal.str "linear" then
    finVal config.initialDelayMs + ((retry - 1 : ℕ) : ℚ) * finVal config.incrementMs
  else
    finVal config.initialDelayMs

/-- `cappedDelayAtRetry` from the source: the raw delay clamped by the cap
when one is set (loose `config.maxDelayMs == null` check). -/
def cappedDelayAtRetry (config : BackoffConfig) (retry : ℕ) : ℚ :=
  if isNullish config.maxDelayMs then rawDelayAtRetry config retry
  else min (rawDelayAtRetry config retry) (finVal config.maxDelayMs)

/-- `summarizeSchedule`'s result record. -/
structure ScheduleSummary where
  totalRetries : ℕ
  finalDelayMs : ℚ
  totalDelayMs : ℚ
deriving DecidableEq, Repr

/-- `summarizeSchedule` from the source.  A non-array argument is modelled as
`Option.none`; `points[points.length - 1]` on a non-empty list is its last
element. -/
def summarizeSchedule (points : Option (List RetryPoint)) : ScheduleSummary :=
  match points with
  | Option.none => { totalRetries := 0, finalDelayMs := 0, totalDelayMs := 0 }
  | Option.some l =>
    if h : l = [] then { totalRetries := 0, finalDelayMs := 0, totalDelayMs := 0 }
    else
      { totalRetries := l.length
        finalDelayMs := (l.getLast h).delayMs
        totalDelayMs := (l.getLast h).cumulativeDelayMs }

/-- The chart aggregation mode. -/
inductive ChartMathMode where
  | delay
  | cumulative
deriving DecidableEq, Repr

/-- The chart series mode. -/
inductive ChartMathSeriesMode where
  | expected
  | simulated
deriving DecidableEq, Repr

/-- `resolveChartMathMode`: `"cumulative"` resolves to cumulative, anything
else defaults to delay. -/
def resolveChartMathMode (value : JVal) : ChartMathMode :=
  if value = JVal.str "cumulative" then ChartMathMode.cumulative else ChartMathMode.delay

/-- `resolveChartMathSeriesMode`: `"simulated"` resolves to simulated,
anything else defaults to expected. -/
def resolveChartMathSeriesMode (value : JVal) : ChartMathSeriesMode :=
  if value = JVal.str "simulated" then ChartMathSeriesMode.simulated
  else ChartMathSeriesMode.expected

/-- A caller-supplied active point before normalization: an object whose four
fields hold arbitrary JavaScript values.  `Option.none` models a `null` /
non-object argument. -/
structure RawActivePoint where
  retry : JVal
  valueMs : JVal
  minMs : JVal
  maxMs : JVal
deriving DecidableEq, Repr

/-- A normalized `ChartMathActivePoint`: integer retry in range, finite
numbers throughout. -/
structure ChartMathActivePoint where
  retry : ℕ
  valueMs : ℚ
  minMs : ℚ
  maxMs : ℚ
deriving DecidableEq, Repr

/-- `normalizeActivePoint` from the source.  The builder calls it with the
already-validated `config.maxRetries`, read as a natural number. -/
def normalizeActivePoint (activePoint : Option RawActivePoint) (maxRetries : ℕ) :
    Option ChartMathActivePoint :=
  match activePoint with
  | Option.none => Option.none
  | Option.some p =>
    if ¬ isIntegerNumber p.retry ∨ finVal p.retry < 1 ∨ finVal p.retry > (maxRetries : ℚ) ∨
        ¬ isFiniteNumber p.valueMs then
      Option.none
    else
      Option.some
        { retry := toNatVal p.retry
          valueMs := finVal p.valueMs
          minMs := if isFiniteNumber p.minMs then finVal p.minMs else finVal p.valueMs
          maxMs := if isFiniteNumber p.maxMs then finVal p.maxMs else finVal p.valueMs }

/-- A variable-binding value: a number, a string placeholder, or `null`. -/
inductive BindingValue where
  | num (q : ℚ)
  | str (s : String)
  | null
deriving DecidableEq, Repr

/-- One entry of the builder's `variableBindings` list. -/
structure VariableBinding where
  symbol : String
  label : String
  value : BindingValue
  visible : Bool
deriving DecidableEq, Repr

/-- The builder's `constants` record; fields are the raw configuration
values (or `null`) exactly as the source forwards them. -/
structure ChartMathConstants where
  initialDelayMs : JVal
  factor : JVal
  incrementMs : JVal
  maxDelayMs : JVal
deriving DecidableEq, Repr

/-- The builder's `resolved` record; each field is a number or `null`. -/
structure ResolvedValues where
  rawDelayMs : Option ℚ
  cappedDelayMs : Option ℚ
  baseChartValueMs : Option ℚ
  expectedDelayMs : Option ℚ
  minDelayMs : Option ℚ
  maxDelayMs : Option ℚ
  randomizedMinValueMs : Option ℚ
  randomizedExpectedValueMs : Option ℚ
  randomizedMaxValueMs : Option ℚ
  chartedValueMs : Option ℚ
deriving DecidableEq, Repr

/-- The `ChartMathExplanationModel` returned by the builder. -/
structure ChartMathExplanationModel where
  strategy : JVal
  jitterType : JitterType
  chartMode : ChartMathMode
  chartSeriesMode : ChartMathSeriesMode
  hasCap : Bool
  maxRetries : ℕ
  activeRetry : Option ℕ
  activePoint : Option ChartMathActivePoint
  chartSourceSymbol : String
  constants : ChartMathConstants
  resolved : ResolvedValues
  variableBindings : List VariableBinding
deriving DecidableEq, Repr

/-- The `ChartMathExplanationContext` argument of the builder. -/
structure ChartMathExplanationContext where
  config : BackoffConfig
  chartMode : JVal
  chartSeriesMode : JVal
  activePoint : Option RawActivePoint
deriving DecidableEq, Repr

/-- The model `buildChartMathExplanation` constructs once validation has
passed (the body of the source function after its validation guard). -/
def buildChartMathExplanationModel (context : ChartMathExplanationContext) :
    ChartMathExplanationModel :=
  let config := context.config
    let jitterType := resolveJitterType config.jitter
    let chartMode := resolveChartMathMode context.chartMode
    let chartSeriesMode := resolveChartMathSeriesMode context.chartSeriesMode
    let hasCap := ! isNullish config.maxDelayMs
    let activePoint := normalizeActivePoint context.activePoint (toNatVal config.maxRetries)
    let activeRetry := activePoint.map (fun p => p.retry)
    let chartSourceSymbol := if chartSeriesMode = ChartMathSeriesMode.simulated then "S" else "E"
    let resolved : ResolvedValues :=
      match activePoint with
      | Option.none =>
        { rawDelayMs := Option.none
          cappedDelayMs := Option.none
          baseChartValueMs := Option.none
          expectedDelayMs := Option.none
          minDelayMs := Option.none
          maxDelayMs := Option.none
          randomizedMinValueMs := Option.none
          randomizedExpectedValueMs := Option.none
          randomizedMaxValueMs := Option.none
          chartedValueMs := Option.none }
      | Option.some ap =>
        let rawDelayMs := rawDelayAtRetry config ap.retry
        let cappedDelayMs :=
          if hasCap then min rawDelayMs (finVal config.maxDelayMs) else rawDelayMs
        let resolvedRange := toDelayRange cappedDelayMs jitterType
        let baseChartValueMs :=
          if chartMode = ChartMathMode.cumulative then
            (List.range ap.retry).foldl (fun acc k => acc + cappedDelayAtRetry config (k + 1)) 0
          else cappedDelayMs
        let randomizedRange := toDelayRange baseChartValueMs jitterType
        { rawDelayMs := Option.some rawDelayMs
          cappedDelayMs := Option.some cappedDelayMs
          baseChartValueMs := Option.some baseChartValueMs
          expectedDelayMs := Option.some resolvedRange.expectedDelayMs
          minDelayMs := Option.some resolvedRange.minDelayMs
          maxDelayMs := Option.some resolvedRange.maxDelayMs
          randomizedMinValueMs := Option.some randomizedRange.minDelayMs
          randomizedExpectedValueMs := Option.some randomizedRange.expectedDelayMs
          randomizedMaxValueMs := Option.some randomizedRange.maxDelayMs
          chartedValueMs := Option.some ap.valueMs }
      { strategy := config.strategy
        jitterType := jitterType
        chartMode := chartMode
        chartSeriesMode := chartSeriesMode
        hasCap := hasCap
        maxRetries := toNatVal config.maxRetries
        activeRetry := activeRetry
        activePoint := activePoint
        chartSourceSymbol := chartSourceSymbol
        constants :=
          { initialDelayMs := config.initialDelayMs
            factor :=
              if config.strategy = JVal.str "exponential" then config.factor else JVal.null
            incrementMs :=
              if config.strategy = JVal.str "linear" then config.incrementMs else JVal.null
            maxDelayMs := config.maxDelayMs }
        resolved := resolved
        variableBindings :=
          [ { symbol := "D0"
              label := "Initial Delay (ms)"
              value := BindingValue.num (finVal config.initialDelayMs)
              visible := true }
          , { symbol := "F"
              label := "Backoff Factor"
              value :=
                if config.strategy = JVal.str "exponential" then
                  BindingValue.num (finVal config.factor)
                else BindingValue.null
              visible := config.strategy = JVal.str "exponential" }
          , { symbol := "I"
              label := "Linear Increment (ms)"
              value :=
                if config.strategy = JVal.str "linear" then
                  BindingValue.num (finVal config.incrementMs)
                else BindingValue.null
              visible := config.strategy = JVal.str "linear" }
          , { symbol := "Dcap"
              label := "Max Delay Cap (ms)"
              value :=
                if hasCap then BindingValue.num (finVal config.maxDelayMs)
                else BindingValue.str "∞"
              visible := true }
          , { symbol := "r"
              label := "Retry Index (1.." ++ toString (toNatVal config.maxRetries) ++ ")"
              value :=
                match activeRetry with
                | Option.none => BindingValue.str "symbolic"
                | Option.some r => BindingValue.num (r : ℚ)
              visible := true } ] }

/-- `buildChartMathExplanation` from the source.  (The source's leading
`context == null || typeof context !== "object"` guard, which throws
"Invalid chart math context.", is outside the model: a context structure is
always an object.)  A thrown `Error` is modelled as `Except.error`. -/
def buildChartMathExplanation (context : ChartMathExplanationContext) :
    Except String ChartMathExplanationModel :=
  let errors := validateConfig context.config
  if errors.length > 0 then
    Except.error ("Invalid configuration: " ++ joinMessages errors)
  else
    Except.ok (buildChartMathExplanationModel context)

/-! ## Basic lemmas -/

lemma ite_singleton_eq_nil {c : Prop} [Decidable c] {a : ValidationError} :
    (if c then [a] else []) = ([] : List ValidationError) ↔ ¬ c := by
  split <;> simp_all

lemma mem_ite_singleton {c : Prop} [Decidable c] {a e : ValidationError}
    (h : e ∈ (if c then [a] else ([] : List ValidationError))) : e = a := by
  split at h <;> simp_all

/-- Characterization of a configuration accepted by the validator. -/
theorem validateConfig_eq_nil_iff (config : BackoffConfig) :
    validateConfig config = [] ↔
      ((config.strategy = JVal.str "exponential" ∨ config.strategy = JVal.str "linear" ∨
          config.strategy = JVal.str "fixed") ∧
        (isFiniteNumber config.initialDelayMs ∧ 0 ≤ finVal config.initialDelayMs) ∧
        (isIntegerNumber config.maxRetries ∧ 0 ≤ finVal config.maxRetries ∧
          finVal config.maxRetries ≤ (MAX_RETRIES_LIMIT : ℚ)) ∧
        (config.maxDelayMs ≠ JVal.null →
          isFiniteNumber config.maxDelayMs ∧ 0 ≤ finVal config.maxDelayMs) ∧
        (config.strategy = JVal.str "exponential" →
          isFiniteNumber config.factor ∧ 1 < finVal config.factor) ∧
        (config.strategy = JVal.str "linear" →
          isFiniteNumber config.incrementMs ∧ 0 ≤ finVal config.incrementMs) ∧
        (config.jitter ≠ JVal.undef → isJitterType config.jitter)) := by
  simp only [validateConfig, List.append_eq_nil, ite_singleton_eq_nil, and_assoc]
  push_neg
  tauto

theorem buildSchedule_length (config : BackoffConfig) (jt : JitterType) :
    ∀ (n r : ℕ) (cD cm cM : ℚ), (buildSchedule config jt n r cD cm cM).length = n := by
  intro n
  induction n with
  | zero => intro r cD cm cM; rfl
  | succ n ih => intro r cD cm cM; simp [buildSchedule, ih]

theorem buildSchedule_getElem (config : BackoffConfig) (jt : JitterType) :
    ∀ (n i r : ℕ) (cD cm cM : ℚ), i < n →
      (buildSchedule config jt n r cD cm cM)[i]? =
        some ({ retry := r + i
                rawDelayMs := loopRawDelay config (r + i)
                minDelayMs := (toDelayRange (loopCappedDelay config (r + i)) jt).minDelayMs
                expectedDelayMs := (toDelayRange (loopCappedDelay config (r + i)) jt).expectedDelayMs
                maxDelayMs := (toDelayRange (loopCappedDelay config (r + i)) jt).maxDelayMs
                delayMs := (toDelayRange (loopCappedDelay config (r + i)) jt).expectedDelayMs
                cumulativeDelayMs :=
                  cD + ∑ j in Finset.range (i + 1),
                    (toDelayRange (loopCappedDelay config (r + j)) jt).expectedDelayMs
                cumulativeMinDelayMs :=
                  cm + ∑ j in Finset.range (i + 1),
                    (toDelayRange (loopCappedDelay config (r + j)) jt).minDelayMs
                cumulativeMaxDelayMs :=
                  cM + ∑ j in Finset.range (i + 1),
                    (toDelayRange (loopCappedDelay config (r + j)) jt).maxDelayMs } : RetryPoint) := by
  intro n
  induction n with
  | zero => intro i r cD cm cM hi; omega
  | succ n ih =>
    intro i r cD cm cM hi
    cases i with
    | zero =>
      simp [buildSchedule, Finset.sum_range_one]
    | succ i =>
      simp only [buildSchedule, List.getElem?_cons_succ]
      rw [ih i (r + 1) _ _ _ (by omega)]
      have hri : r + 1 + i = r + (i + 1) := by omega
      have hrj : ∀ j : ℕ, r + 1 + j = r + (j + 1) := fun j => by omega
      simp only [hri, hrj]
      simp only [Option.some.injEq, RetryPoint.mk.injEq]
      refine ⟨trivial, trivial, trivial, trivial, trivial, trivial, ?_, ?_, ?_⟩ <;>
      · rw [Finset.sum_range_succ' _ (i + 1)]
        simp [add_assoc, add_comm, add_left_comm]

lemma generateSchedule_ok (config : BackoffConfig) (h : validateConfig config = []) :
    generateSchedule config =
      Except.ok (buildSchedule config (resolveJitterType config.jitter)
        (toNatVal config.maxRetries) 1 0 0 0) := by
  simp [generateSchedule, h]

lemma loopRawDelay_nonneg (config : BackoffConfig) (h : validateConfig config = [])
    (retry : ℕ) : 0 ≤ loopRawDelay config retry := by
  obtain ⟨hs, hinit, hmr, hmd, hfac, hinc, hjit⟩ := (validateConfig_eq_nil_iff config).1 h
  unfold loopRawDelay
  split_ifs with h1 h2
  · have hf : (0 : ℚ) ≤ finVal config.factor := by have := (hfac h1).2; linarith
    exact mul_nonneg hinit.2 (pow_nonneg hf _)
  · exact add_nonneg hinit.2 (mul_nonneg (Nat.cast_nonneg _) (hinc h2).2)
  · exact hinit.2

lemma cap_nonneg_of_not_nullish (config : BackoffConfig) (h : validateConfig config = [])
    (hc : ¬ isNullish config.maxDelayMs = true) : 0 ≤ finVal config.maxDelayMs := by
  obtain ⟨hs, hinit, hmr, hmd, hfac, hinc, hjit⟩ := (validateConfig_eq_nil_iff config).1 h
  have hne : config.maxDelayMs ≠ JVal.null := by
    intro he; rw [he] at hc; exact hc rfl
  exact (hmd hne).2

lemma loopCappedDelay_nonneg (config : BackoffConfig) (h : validateConfig config = [])
    (retry : ℕ) : 0 ≤ loopCappedDelay config retry := by
  unfold loopCappedDelay
  split_ifs with h1
  · exact loopRawDelay_nonneg config h retry
  · exact le_min (loopRawDelay_nonneg config h retry) (cap_nonneg_of_not_nullish config h h1)

lemma toDelayRange_nonneg {c : ℚ} (hc : 0 ≤ c) (jt : JitterType) :
    0 ≤ (toDelayRange c jt).minDelayMs ∧ 0 ≤ (toDelayRange c jt).expectedDelayMs ∧
      0 ≤ (toDelayRange c jt).maxDelayMs := by
  refine ⟨?_, ?_, ?_⟩ <;> cases jt <;> simp [toDelayRange] <;> linarith

lemma toDelayRange_maxDelayMs_eq (c : ℚ) (jt : JitterType) :
    (toDelayRange c jt).maxDelayMs = c := by
  cases jt <;> simp [toDelayRange]

lemma toDelayRange_expectedDelayMs_le {c : ℚ} (hc : 0 ≤ c) (jt : JitterType) :
    (toDelayRange c jt).expectedDelayMs ≤ c := by
  cases jt <;> simp [toDelayRange] <;> linarith

/-! ## Claim C1 -/

/-- C1: for every config accepted by the validator, `generateSchedule` returns
(does not throw) a sequence of exactly `maxRetries` points, and the point at
1-based retry index `r` carries `retry = r` and `rawDelayMs` given by the
active strategy's formula: `initialDelayMs * factor^(r-1)` for exponential,
`initialDelayMs + (r-1) * incrementMs` for linear, and `initialDelayMs` for
fixed. -/
theorem generateSchedule_length_and_rawDelay (config : BackoffConfig)
    (h : validateConfig config = []) :
    ∃ pts, generateSchedule config = Except.ok pts ∧
      pts.length = toNatVal config.maxRetries ∧
      ∀ r : ℕ, 1 ≤ r → r ≤ pts.length →
        ∃ p, pts[r - 1]? = some p ∧ p.retry = r ∧
          p.rawDelayMs =
            (if config.strategy = JVal.str "exponential" then
              finVal config.initialDelayMs * finVal config.factor ^ (r - 1)
            else if config.strategy = JVal.str "linear" then
              finVal config.initialDelayMs + ((r - 1 : ℕ) : ℚ) * finVal config.incrementMs
            else finVal config.initialDelayMs) := by
  refine ⟨_, generateSchedule_ok config h, ?_, ?_⟩
  · exact buildSchedule_length config _ _ _ _ _ _
  · intro r h1 h2
    rw [buildSchedule_length] at h2
    have hi : r - 1 < toNatVal config.maxRetries := by omega
    refine ⟨_, buildSchedule_getElem config _ (toNatVal config.maxRetries) (r - 1) 1 0 0 0 hi,
      ?_, ?_⟩
    · show 1 + (r - 1) = r
      omega
    · show loopRawDelay config (1 + (r - 1)) = _
      rw [show 1 + (r - 1) = r from by omega]
      rfl

/-- The capped delay a schedule point's jitter range is derived from: the
source's cap rule applied to the point's recorded raw delay. -/
def pointCappedDelay (config : BackoffConfig) (p : RetryPoint) : ℚ :=
  if isNullish config.maxDelayMs then p.rawDelayMs
  else min p.rawDelayMs (finVal config.maxDelayMs)

lemma rawDelayAtRetry_eq_loopRawDelay (config : BackoffConfig) (retry : ℕ) :
    rawDelayAtRetry config retry = loopRawDelay config retry := rfl

lemma cappedDelayAtRetry_eq_loopCappedDelay (config : BackoffConfig) (retry : ℕ) :
    cappedDelayAtRetry config retry = loopCappedDelay config retry := rfl

/-- Closed form of any point of a generated schedule. -/
lemma generateSchedule_point (config : BackoffConfig) (h : validateConfig config = [])
    (pts : List RetryPoint) (hpts : generateSchedule config = Except.ok pts)
    (i : ℕ) (p : RetryPoint) (hp : pts[i]? = some p) :
    i < toNatVal config.maxRetries ∧
      p = { retry := 1 + i
            rawDelayMs := loopRawDelay config (1 + i)
            minDelayMs := (toDelayRange (loopCappedDelay config (1 + i))
              (resolveJitterType config.jitter)).minDelayMs
            expectedDelayMs := (toDelayRange (loopCappedDelay config (1 + i))
              (resolveJitterType config.jitter)).expectedDelayMs
            maxDelayMs := (toDelayRange (loopCappedDelay config (1 + i))
              (resolveJitterType config.jitter)).maxDelayMs
            delayMs := (toDelayRange (loopCappedDelay config (1 + i))
              (resolveJitterType config.jitter)).expectedDelayMs
            cumulativeDelayMs := 0 + ∑ j in Finset.range (i + 1),
              (toDelayRange (loopCappedDelay config (1 + j))
                (resolveJitterType config.jitter)).expectedDelayMs
            cumulativeMinDelayMs := 0 + ∑ j in Finset.range (i + 1),
              (toDelayRange (loopCappedDelay config (1 + j))
                (resolveJitterType config.jitter)).minDelayMs
            cumulativeMaxDelayMs := 0 + ∑ j in Finset.range (i + 1),
              (toDelayRange (loopCappedDelay config (1 + j))
                (resolveJitterType config.jitter)).maxDelayMs } := by
  rw [generateSchedule_ok config h] at hpts
  have hb := Except.ok.inj hpts
  subst hb
  obtain ⟨hlen, -⟩ := List.getElem?_eq_some_iff.1 hp
  rw [buildSchedule_length] at hlen
  rw [buildSchedule_getElem config _ (toNatVal config.maxRetries) i 1 0 0 0 hlen] at hp
  exact ⟨hlen, (Option.some.inj hp).symm⟩

/-! ## Claim C2 -/

/-- C2: for every validated config and every point of the generated schedule,
the jitter range is derived from the capped delay: `none` gives
`min = expected = max = capped`; `equal` gives `min = capped/2`,
`expected = capped * 0.75`, `max = capped`; `full` gives `min = 0`,
`expected = capped/2`, `max = capped`; and `delayMs = expectedDelayMs` in
every case. -/
theorem schedule_jitter_ranges (config : BackoffConfig) (h : validateConfig config = [])
    (pts : List RetryPoint) (hpts : generateSchedule config = Except.ok pts)
    (i : ℕ) (p : RetryPoint) (hp : pts[i]? = some p) :
    p.delayMs = p.expectedDelayMs ∧
    (resolveJitterType config.jitter = JitterType.none →
      p.minDelayMs = pointCappedDelay config p ∧
      p.expectedDelayMs = pointCappedDelay config p ∧
      p.maxDelayMs = pointCappedDelay config p) ∧
    (resolveJitterType config.jitter = JitterType.equal →
      p.minDelayMs = pointCappedDelay config p / 2 ∧
      p.expectedDelayMs = pointCappedDelay config p * (0.75 : ℚ) ∧
      p.maxDelayMs = pointCappedDelay config p) ∧
    (resolveJitterType config.jitter = JitterType.full →
      p.minDelayMs = 0 ∧
      p.expectedDelayMs = pointCappedDelay config p / 2 ∧
      p.maxDelayMs = pointCappedDelay config p) := by
  obtain ⟨hi, hpeq⟩ := generateSchedule_point config h pts hpts i p hp
  subst hpeq
  have hcap : pointCappedDelay config
      { retry := 1 + i
        rawDelayMs := loopRawDelay config (1 + i)
        minDelayMs := (toDelayRange (loopCappedDelay config (1 + i))
          (resolveJitterType config.jitter)).minDelayMs
        expectedDelayMs := (toDelayRange (loopCappedDelay config (1 + i))
          (resolveJitterType config.jitter)).expectedDelayMs
        maxDelayMs := (toDelayRange (loopCappedDelay config (1 + i))
          (resolveJitterType config.jitter)).maxDelayMs
        delayMs := (toDelayRange (loopCappedDelay config (1 + i))
          (resolveJitterType config.jitter)).expectedDelayMs
        cumulativeDelayMs := 0 + ∑ j in Finset.range (i + 1),
          (toDelayRange (loopCappedDelay config (1 + j))
            (resolveJitterType config.jitter)).expectedDelayMs
        cumulativeMinDelayMs := 0 + ∑ j in Finset.range (i + 1),
          (toDelayRange (loopCappedDelay config (1 + j))
            (resolveJitterType config.jitter)).minDelayMs
        cumulativeMaxDelayMs := 0 + ∑ j in Finset.range (i + 1),
          (toDelayRange (loopCappedDelay config (1 + j))
            (resolveJitterType config.jitter)).maxDelayMs } =
      loopCappedDelay config (1 + i) := rfl
  rw [hcap]
  refine ⟨rfl, ?_, ?_, ?_⟩ <;> intro hjt <;> rw [hjt] <;>
    exact ⟨rfl, rfl, rfl⟩

/-- Running sums invariant of the generator loop. -/
lemma buildSchedule_cumulative (config : BackoffConfig) (jt : JitterType) :
    ∀ (n r : ℕ) (cD cm cM : ℚ) (i : ℕ) (p : RetryPoint),
      (buildSchedule config jt n r cD cm cM)[i]? = some p →
      p.cumulativeDelayMs =
        cD + (((buildSchedule config jt n r cD cm cM).take (i + 1)).map
          (fun q => q.delayMs)).sum ∧
      p.cumulativeMinDelayMs =
        cm + (((buildSchedule config jt n r cD cm cM).take (i + 1)).map
          (fun q => q.minDelayMs)).sum ∧
      p.cumulativeMaxDelayMs =
        cM + (((buildSchedule config jt n r cD cm cM).take (i + 1)).map
          (fun q => q.maxDelayMs)).sum := by
  intro n
  induction n with
  | zero => intro r cD cm cM i p hp; simp [buildSchedule] at hp
  | succ n ih =>
    intro r cD cm cM i p hp
    cases i with
    | zero =>
      simp only [buildSchedule, List.getElem?_cons_zero, Option.some.injEq] at hp
      subst hp
      refine ⟨?_, ?_, ?_⟩ <;> simp [buildSchedule]
    | succ i =>
      simp only [buildSchedule, List.getElem?_cons_succ] at hp
      obtain ⟨h1, h2, h3⟩ := ih (r + 1) _ _ _ i p hp
      refine ⟨?_, ?_, ?_⟩ <;>
        simp only [buildSchedule, List.take_succ_cons, List.map_cons, List.sum_cons] <;>
        [rw [h1]; rw [h2]; rw [h3]] <;> ring

/-! ## Claim C4 -/

/-- C4: in every generated schedule, each point's `cumulativeDelayMs`,
`cumulativeMinDelayMs` and `cumulativeMaxDelayMs` are the sums of `delayMs`,
`minDelayMs` and `maxDelayMs` over retries 1 through that point inclusive
(an empty sum — 0 — before retry 1), and `cumulativeDelayMs` is
non-decreasing in the retry index. -/
theorem schedule_cumulative_sums (config : BackoffConfig) (h : validateConfig config = [])
    (pts : List RetryPoint) (hpts : generateSchedule config = Except.ok pts) :
    (∀ (i : ℕ) (p : RetryPoint), pts[i]? = some p →
      p.cumulativeDelayMs = ((pts.take (i + 1)).map (fun q => q.delayMs)).sum ∧
      p.cumulativeMinDelayMs = ((pts.take (i + 1)).map (fun q => q.minDelayMs)).sum ∧
      p.cumulativeMaxDelayMs = ((pts.take (i + 1)).map (fun q => q.maxDelayMs)).sum) ∧
    (∀ (i j : ℕ) (p q : RetryPoint), i ≤ j → pts[i]? = some p → pts[j]? = some q →
      p.cumulativeDelayMs ≤ q.cumulativeDelayMs) := by
  constructor
  · intro i p hp
    have hb : pts = buildSchedule config (resolveJitterType config.jitter)
        (toNatVal config.maxRetries) 1 0 0 0 := by
      have := generateSchedule_ok config h
      rw [this] at hpts
      exact (Except.ok.inj hpts).symm
    subst hb
    have := buildSchedule_cumulative config (resolveJitterType config.jitter)
      (toNatVal config.maxRetries) 1 0 0 0 i p hp
    simpa using this
  · intro i j p q hij hp hq
    obtain ⟨hi, hpe⟩ := generateSchedule_point config h pts hpts i p hp
    obtain ⟨hj, hqe⟩ := generateSchedule_point config h pts hpts j q hq
    subst hpe
    subst hqe
    simp only [zero_add]
    refine Finset.sum_le_sum_of_subset_of_nonneg (Finset.range_subset.2 (by omega)) ?_
    intro k _ _
    exact (toDelayRange_nonneg (loopCappedDelay_nonneg config h (1 + k))
      (resolveJitterType config.jitter)).2.1

/-! ## Claim C5 -/

/-- C5: for every validated config whose `maxDelayMs` is an actual (non-null)
number, every generated point's jitter range is derived from
`min(rawDelayMs, maxDelayMs)` — the capped delay — and hence its `delayMs`
(the expected value derived from the capped delay) is at most the configured
`maxDelayMs`. -/
theorem schedule_capped_delay (config : BackoffConfig) (h : validateConfig config = [])
    (hm : ∃ x : JSNumber, config.maxDelayMs = JVal.num x)
    (pts : List RetryPoint) (hpts : generateSchedule config = Except.ok pts)
    (i : ℕ) (p : RetryPoint) (hp : pts[i]? = some p) :
    toDelayRange (min p.rawDelayMs (finVal config.maxDelayMs))
        (resolveJitterType config.jitter) =
      { minDelayMs := p.minDelayMs
        expectedDelayMs := p.expectedDelayMs
        maxDelayMs := p.maxDelayMs } ∧
    p.delayMs ≤ finVal config.maxDelayMs := by
  obtain ⟨x, hx⟩ := hm
  have hnn : isNullish config.maxDelayMs = false := by rw [hx]; rfl
  obtain ⟨hi, hpe⟩ := generateSchedule_point config h pts hpts i p hp
  have hraw : p.rawDelayMs = loopRawDelay config (1 + i) := by rw [hpe]
  have hminf : p.minDelayMs = (toDelayRange (loopCappedDelay config (1 + i))
      (resolveJitterType config.jitter)).minDelayMs := by rw [hpe]
  have hexpf : p.expectedDelayMs = (toDelayRange (loopCappedDelay config (1 + i))
      (resolveJitterType config.jitter)).expectedDelayMs := by rw [hpe]
  have hmaxf : p.maxDelayMs = (toDelayRange (loopCappedDelay config (1 + i))
      (resolveJitterType config.jitter)).maxDelayMs := by rw [hpe]
  have hdel : p.delayMs = (toDelayRange (loopCappedDelay config (1 + i))
      (resolveJitterType config.jitter)).expectedDelayMs := by rw [hpe]
  have hcap : min (loopRawDelay config (1 + i)) (finVal config.maxDelayMs) =
      loopCappedDelay config (1 + i) := by
    simp [loopCappedDelay, hnn]
  constructor
  · rw [hraw, hminf, hexpf, hmaxf, hcap]
  · rw [hdel]
    refine le_trans
      (toDelayRange_expectedDelayMs_le (loopCappedDelay_nonneg config h (1 + i)) _) ?_
    rw [loopCappedDelay, hnn]
    simp

lemma generateSchedule_error (config : BackoffConfig) (hne : validateConfig config ≠ []) :
    generateSchedule config =
      Except.error ("Invalid configuration: " ++ joinMessages (validateConfig config)) := by
  have hlen : (validateConfig config).length > 0 := List.length_pos.2 hne
  simp [generateSchedule, hlen]

lemma buildChartMathExplanation_ok (context : ChartMathExplanationContext)
    (h : validateConfig context.config = []) :
    buildChartMathExplanation context =
      Except.ok (buildChartMathExplanationModel context) := by
  simp [buildChartMathExplanation, h]

lemma buildChartMathExplanation_error (context : ChartMathExplanationContext)
    (hne : validateConfig context.config ≠ []) :
    buildChartMathExplanation context =
      Except.error ("Invalid configuration: " ++ joinMessages (validateConfig context.config)) := by
  have hlen : (validateConfig context.config).length > 0 := List.length_pos.2 hne
  simp [buildChartMathExplanation, hlen]

/-! ## Claim C3 -/

/-- C3: `generateSchedule` and `buildChartMathExplanation` raise an
"invalid configuration" error carrying the concatenated validation messages
if and only if `validateConfig` on the supplied config is non-empty; on every
config the validator accepts they return normally. -/
theorem invalid_configuration_raise_iff (context : ChartMathExplanationContext) :
    ((∃ pts, generateSchedule context.config = Except.ok pts) ∧
        (∃ m, buildChartMathExplanation context = Except.ok m) ↔
      validateConfig context.config = []) ∧
    (validateConfig context.config ≠ [] →
      generateSchedule context.config =
        Except.error ("Invalid configuration: " ++ joinMessages (validateConfig context.config)) ∧
      buildChartMathExplanation context =
        Except.error
          ("Invalid configuration: " ++ joinMessages (validateConfig context.config))) := by
  by_cases hv : validateConfig context.config = []
  · refine ⟨⟨fun _ => hv, fun _ => ?_⟩, fun hne => absurd hv hne⟩
    exact ⟨⟨_, generateSchedule_ok context.config hv⟩, ⟨_, buildChartMathExplanation_ok context hv⟩⟩
  · refine ⟨⟨fun hp => ?_, fun he => absurd he hv⟩,
      fun _ => ⟨generateSchedule_error context.config hv, buildChartMathExplanation_error context hv⟩⟩
    obtain ⟨⟨pts, hp⟩, -⟩ := hp
    rw [generateSchedule_error context.config hv] at hp
    exact absurd hp (by simp)

/-! ## Claim C9 -/

/-- C9: `summarizeSchedule` returns all-zero totals on a non-array or empty
input; otherwise it returns the sequence length as `totalRetries` and takes
`finalDelayMs` and `totalDelayMs` from the last point's `delayMs` and
`cumulativeDelayMs`. -/
theorem summarizeSchedule_spec :
    summarizeSchedule Option.none =
      { totalRetries := 0, finalDelayMs := 0, totalDelayMs := 0 } ∧
    summarizeSchedule (Option.some []) =
      { totalRetries := 0, finalDelayMs := 0, totalDelayMs := 0 } ∧
    ∀ (l : List RetryPoint) (hl : l ≠ []),
      summarizeSchedule (Option.some l) =
        { totalRetries := l.length
          finalDelayMs := (l.getLast hl).delayMs
          totalDelayMs := (l.getLast hl).cumulativeDelayMs } := by
  refine ⟨rfl, rfl, ?_⟩
  intro l hl
  simp [summarizeSchedule, hl]

/-! ## Claim C6 -/

/-- A well-formed fixed-strategy configuration except that the `maxDelayMs`
field is absent (`undefined`). -/
def exampleAbsentCapConfig : BackoffConfig :=
  { strategy := JVal.str "fixed"
    initialDelayMs := JVal.num (JSNumber.fin 100)
    maxRetries := JVal.num (JSNumber.fin 3)
    maxDelayMs := JVal.undef
    factor := JVal.undef
    incrementMs := JVal.undef
    jitter := JVal.undef }

/-- The same configuration with `maxDelayMs` explicitly `null`. -/
def exampleNullCapConfig : BackoffConfig :=
  { exampleAbsentCapConfig with maxDelayMs := JVal.null }

/-- C6 is false on the code: an otherwise well-formed config with an absent
(undefined) `maxDelayMs` field does receive an error tagged `maxDelayMs`
(the validator's guard is the strict `config.maxDelayMs !== null`), while
the identical config with `maxDelayMs` explicitly `null` validates
cleanly. -/
theorem absent_maxDelay_rejected_counterexample :
    (⟨"maxDelayMs", "Must be >= 0 or blank."⟩ : ValidationError) ∈
        validateConfig exampleAbsentCapConfig ∧
      validateConfig exampleNullCapConfig = [] := by decide

/-- C6 (amended): only an explicit `null` `maxDelayMs` is treated as
unbounded and valid — the validator then reports no error tagged
`maxDelayMs` — whereas a missing/undefined `maxDelayMs` always receives the
error tagged `maxDelayMs`. -/
theorem null_vs_absent_maxDelay (config : BackoffConfig) :
    (config.maxDelayMs = JVal.null →
      ∀ e ∈ validateConfig config, e.field ≠ "maxDelayMs") ∧
    (config.maxDelayMs = JVal.undef →
      (⟨"maxDelayMs", "Must be >= 0 or blank."⟩ : ValidationError) ∈
        validateConfig config) := by
  constructor
  · intro hm e he
    unfold validateConfig at he
    simp only [List.mem_append] at he
    rcases he with ((((((h | h) | h) | h) | h) | h) | h)
    · rw [mem_ite_singleton h]; decide
    · rw [mem_ite_singleton h]; decide
    · rw [mem_ite_singleton h]; decide
    · rw [if_neg (fun hc => hc.1 hm)] at h
      exact absurd h (List.not_mem_nil e)
    · rw [mem_ite_singleton h]; decide
    · rw [mem_ite_singleton h]; decide
    · rw [mem_ite_singleton h]; decide
  · intro hm
    unfold validateConfig
    simp only [List.mem_append]
    refine Or.inl (Or.inl (Or.inl (Or.inr ?_)))
    rw [hm]
    decide

theorem null_vs_absent_maxDelay_witness :
    ¬ ((⟨"maxDelayMs", "Must be >= 0 or blank."⟩ : ValidationError) ∈
        validateConfig exampleNullCapConfig) ∧
      (⟨"maxDelayMs", "Must be >= 0 or blank."⟩ : ValidationError) ∈
        validateConfig exampleAbsentCapConfig :=
  ⟨fun hmem => (null_vs_absent_maxDelay exampleNullCapConfig).1 rfl _ hmem rfl,
    (null_vs_absent_maxDelay exampleAbsentCapConfig).2 rfl⟩

/-! ## Claim C10 -/

/-- C10: a config whose `jitter` field is explicitly `null` is rejected: the
validator reports an error tagged `jitter` (only a missing/`undefined`
jitter defaults), so `generateSchedule` and `buildChartMathExplanation`
throw on it — even though `resolveJitterType` normalizes `null` to the
default `"none"`. -/
theorem null_jitter_rejected (config : BackoffConfig) (hj : config.jitter = JVal.null) :
    resolveJitterType JVal.null = JitterType.none ∧
    (⟨"jitter", "Must be none, equal, or full."⟩ : ValidationError) ∈
      validateConfig config ∧
    generateSchedule config =
      Except.error ("Invalid configuration: " ++ joinMessages (validateConfig config)) ∧
    (∀ context : ChartMathExplanationContext, context.config = config →
      buildChartMathExplanation context =
        Except.error ("Invalid configuration: " ++ joinMessages (validateConfig config))) := by
  have hmem : (⟨"jitter", "Must be none, equal, or full."⟩ : ValidationError) ∈
      validateConfig config := by
    unfold validateConfig
    simp only [List.mem_append]
    refine Or.inr ?_
    rw [hj]
    decide
  have hne : validateConfig config ≠ [] := List.ne_nil_of_mem hmem
  refine ⟨rfl, hmem, generateSchedule_error config hne, ?_⟩
  intro context hctx
  have herr := buildChartMathExplanation_error context (by rw [hctx]; exact hne)
  rw [hctx] at herr
  exact herr

/-! ## Concrete example inputs and witnesses -/

/-- Exponential strategy, 500 ms initial delay, 5 retries, uncapped. -/
def exampleExponentialConfig : BackoffConfig :=
  { strategy := JVal.str "exponential"
    initialDelayMs := JVal.num (JSNumber.fin 500)
    maxRetries := JVal.num (JSNumber.fin 5)
    maxDelayMs := JVal.null
    factor := JVal.num (JSNumber.fin 2)
    incrementMs := JVal.undef
    jitter := JVal.undef }

/-- Fixed strategy, 100 ms delay, a single retry, uncapped, no jitter. -/
def exampleFixedConfig : BackoffConfig :=
  { strategy := JVal.str "fixed"
    initialDelayMs := JVal.num (JSNumber.fin 100)
    maxRetries := JVal.num (JSNumber.fin 1)
    maxDelayMs := JVal.null
    factor := JVal.undef
    incrementMs := JVal.undef
    jitter := JVal.undef }

/-- The single point of `exampleFixedConfig`'s schedule. -/
def exampleFixedPoint : RetryPoint :=
  { retry := 1, rawDelayMs := 100, minDelayMs := 100, expectedDelayMs := 100
    maxDelayMs := 100, delayMs := 100, cumulativeDelayMs := 100
    cumulativeMinDelayMs := 100, cumulativeMaxDelayMs := 100 }

/-- Fixed strategy, 1200 ms delay, one retry, capped at 1000 ms, full
jitter. -/
def exampleCappedConfig : BackoffConfig :=
  { strategy := JVal.str "fixed"
    initialDelayMs := JVal.num (JSNumber.fin 1200)
    maxRetries := JVal.num (JSNumber.fin 1)
    maxDelayMs := JVal.num (JSNumber.fin 1000)
    factor := JVal.undef
    incrementMs := JVal.undef
    jitter := JVal.str "full" }

/-- The single point of `exampleCappedConfig`'s schedule. -/
def exampleCappedPoint : RetryPoint :=
  { retry := 1, rawDelayMs := 1200, minDelayMs := 0, expectedDelayMs := 500
    maxDelayMs := 1000, delayMs := 500, cumulativeDelayMs := 500
    cumulativeMinDelayMs := 0, cumulativeMaxDelayMs := 1000 }

/-- Otherwise-valid fixed config with `jitter` explicitly `null`. -/
def exampleNullJitterConfig : BackoffConfig :=
  { strategy := JVal.str "fixed"
    initialDelayMs := JVal.num (JSNumber.fin 100)
    maxRetries := JVal.num (JSNumber.fin 3)
    maxDelayMs := JVal.null
    factor := JVal.undef
    incrementMs := JVal.undef
    jitter := JVal.null }

/-- A chart-math context over `exampleNullJitterConfig`. -/
def exampleInvalidContext : ChartMathExplanationContext :=
  { config := exampleNullJitterConfig
    chartMode := JVal.undef
    chartSeriesMode := JVal.undef
    activePoint := Option.none }

lemma exampleFixedSchedule :
    generateSchedule exampleFixedConfig = Except.ok [exampleFixedPoint] := by
  rw [generateSchedule_ok exampleFixedConfig (by decide)]
  congr 1
  norm_num [buildSchedule, exampleFixedConfig, exampleFixedPoint, loopRawDelay, loopCappedDelay,
    toDelayRange, resolveJitterType, toNatVal, finVal, isNullish, DEFAULT_JITTER_TYPE,
    Int.toNat_ofNat]
  decide

lemma exampleCappedSchedule :
    generateSchedule exampleCappedConfig = Except.ok [exampleCappedPoint] := by
  rw [generateSchedule_ok exampleCappedConfig (by decide)]
  congr 1
  norm_num [buildSchedule, exampleCappedConfig, exampleCappedPoint, loopRawDelay, loopCappedDelay,
    toDelayRange, resolveJitterType, toNatVal, finVal, isNullish, DEFAULT_JITTER_TYPE,
    Int.toNat_ofNat]
  decide

theorem generateSchedule_length_and_rawDelay_witness :
    validateConfig exampleExponentialConfig = [] ∧
    (∃ pts, generateSchedule exampleExponentialConfig = Except.ok pts ∧
      pts.length = toNatVal exampleExponentialConfig.maxRetries ∧
      ∀ r : ℕ, 1 ≤ r → r ≤ pts.length →
        ∃ p, pts[r - 1]? = some p ∧ p.retry = r ∧
          p.rawDelayMs =
            (if exampleExponentialConfig.strategy = JVal.str "exponential" then
              finVal exampleExponentialConfig.initialDelayMs *
                finVal exampleExponentialConfig.factor ^ (r - 1)
            else if exampleExponentialConfig.strategy = JVal.str "linear" then
              finVal exampleExponentialConfig.initialDelayMs +
                ((r - 1 : ℕ) : ℚ) * finVal exampleExponentialConfig.incrementMs
            else finVal exampleExponentialConfig.initialDelayMs)) :=
  ⟨by decide, generateSchedule_length_and_rawDelay exampleExponentialConfig (by decide)⟩

theorem schedule_jitter_ranges_witness :
    exampleFixedPoint.delayMs = exampleFixedPoint.expectedDelayMs :=
  (schedule_jitter_ranges exampleFixedConfig (by decide) [exampleFixedPoint]
    exampleFixedSchedule 0 exampleFixedPoint rfl).1

theorem schedule_cumulative_sums_witness :
    exampleFixedPoint.cumulativeDelayMs =
      (([exampleFixedPoint].take 1).map (fun q => q.delayMs)).sum :=
  ((schedule_cumulative_sums exampleFixedConfig (by decide) [exampleFixedPoint]
    exampleFixedSchedule).1 0 exampleFixedPoint rfl).1

theorem schedule_capped_delay_witness :
    exampleCappedPoint.delayMs ≤ finVal exampleCappedConfig.maxDelayMs :=
  (schedule_capped_delay exampleCappedConfig (by decide) ⟨JSNumber.fin 1000, rfl⟩
    [exampleCappedPoint] exampleCappedSchedule 0 exampleCappedPoint rfl).2

theorem summarizeSchedule_spec_witness :
    summarizeSchedule (Option.some [exampleFixedPoint]) =
      { totalRetries := 1
        finalDelayMs := ([exampleFixedPoint].getLast
          (List.cons_ne_nil exampleFixedPoint [])).delayMs
        totalDelayMs := ([exampleFixedPoint].getLast
          (List.cons_ne_nil exampleFixedPoint [])).cumulativeDelayMs } :=
  summarizeSchedule_spec.2.2 [exampleFixedPoint] (List.cons_ne_nil exampleFixedPoint [])

theorem null_jitter_rejected_witness :
    generateSchedule exampleNullJitterConfig =
      Except.error
        ("Invalid configuration: " ++ joinMessages (validateConfig exampleNullJitterConfig)) :=
  (null_jitter_rejected exampleNullJitterConfig rfl).2.2.1

theorem invalid_configuration_raise_iff_witness :
    generateSchedule exampleInvalidContext.config =
      Except.error ("Invalid configuration: " ++
        joinMessages (validateConfig exampleInvalidContext.config)) ∧
    buildChartMathExplanation exampleInvalidContext =
      Except.error ("Invalid configuration: " ++
        joinMessages (validateConfig exampleInvalidContext.config)) :=
  (invalid_configuration_raise_iff exampleInvalidContext).2 (by decide)

/-! ## Active-point normalization lemmas -/

lemma isIntegerNumber_eq (v : JVal) (h : isIntegerNumber v = true) :
    ∃ q : ℚ, v = JVal.num (JSNumber.fin q) ∧ q.den = 1 := by
  cases v with
  | num x =>
    cases x with
    | fin q => exact ⟨q, rfl, by simpa [isIntegerNumber] using h⟩
    | nan => simp [isIntegerNumber] at h
    | posInf => simp [isIntegerNumber] at h
    | negInf => simp [isIntegerNumber] at h
  | undef => simp [isIntegerNumber] at h
  | null => simp [isIntegerNumber] at h
  | str s => simp [isIntegerNumber] at h
  | bool b => simp [isIntegerNumber] at h

/-- Characterization of `normalizeActivePoint` on an object argument. -/
lemma normalizeActivePoint_some_iff (p : RawActivePoint) (n : ℕ) :
    normalizeActivePoint (Option.some p) n =
      (if isIntegerNumber p.retry ∧ 1 ≤ finVal p.retry ∧ finVal p.retry ≤ (n : ℚ) ∧
          isFiniteNumber p.valueMs then
        Option.some
          { retry := toNatVal p.retry
            valueMs := finVal p.valueMs
            minMs := if isFiniteNumber p.minMs then finVal p.minMs else finVal p.valueMs
            maxMs := if isFiniteNumber p.maxMs then finVal p.maxMs else finVal p.valueMs }
      else Option.none) := by
  simp only [normalizeActivePoint]
  by_cases hD : isIntegerNumber p.retry = true ∧ 1 ≤ finVal p.retry ∧
      finVal p.retry ≤ (n : ℚ) ∧ isFiniteNumber p.valueMs = true
  · have hc : ¬ (¬ isIntegerNumber p.retry = true ∨ finVal p.retry < 1 ∨
        finVal p.retry > (n : ℚ) ∨ ¬ isFiniteNumber p.valueMs = true) := by
      push_neg
      exact ⟨hD.1, hD.2.1, hD.2.2.1, hD.2.2.2⟩
    rw [if_neg hc, if_pos hD]
  · have hc : ¬ isIntegerNumber p.retry = true ∨ finVal p.retry < 1 ∨
        finVal p.retry > (n : ℚ) ∨ ¬ isFiniteNumber p.valueMs = true := by
      by_contra hcc
      push_neg at hcc
      exact hD ⟨hcc.1, hcc.2.1, hcc.2.2.1, hcc.2.2.2⟩
    rw [if_pos hc, if_neg hD]

/-- The retry index kept by `normalizeActivePoint` lies in `[1, maxRetries]`. -/
lemma normalizeActivePoint_retry_bounds (apRaw : Option RawActivePoint) (n : ℕ)
    (ap : ChartMathActivePoint) (h : normalizeActivePoint apRaw n = Option.some ap) :
    1 ≤ ap.retry ∧ ap.retry ≤ n := by
  cases apRaw with
  | none => simp [normalizeActivePoint] at h
  | some p =>
    rw [normalizeActivePoint_some_iff] at h
    by_cases hD : isIntegerNumber p.retry = true ∧ 1 ≤ finVal p.retry ∧
        finVal p.retry ≤ (n : ℚ) ∧ isFiniteNumber p.valueMs = true
    · rw [if_pos hD] at h
      obtain ⟨hint, hge, hle, hfin⟩ := hD
      obtain ⟨q, hq, hden⟩ := isIntegerNumber_eq p.retry hint
      have hap : ap.retry = toNatVal p.retry := by
        rw [← Option.some.inj h]
      rw [hap, hq]
      have hfv : finVal (JVal.num (JSNumber.fin q)) = q := rfl
      rw [hq, hfv] at hge hle
      have hqnum : (q.num : ℚ) = q := Rat.coe_int_num_of_den_eq_one hden
      have hz1 : (1 : ℤ) ≤ q.num := by
        rw [← hqnum] at hge
        exact_mod_cast hge
      have hz2 : q.num ≤ (n : ℤ) := by
        rw [← hqnum] at hle
        exact_mod_cast hle
      have ht : toNatVal (JVal.num (JSNumber.fin q)) = q.num.toNat := rfl
      rw [ht]
      omega
    · rw [if_neg hD] at h
      exact absurd h (by simp)

/-- When no active point survives normalization, the builder's model has a
null active retry, an all-null `resolved` record, and a "symbolic" retry
binding. -/
lemma buildChartMathExplanationModel_inactive (context : ChartMathExplanationContext)
    (hap : normalizeActivePoint context.activePoint (toNatVal context.config.maxRetries) =
      Option.none) :
    (buildChartMathExplanationModel context).activeRetry = Option.none ∧
    (buildChartMathExplanationModel context).resolved =
      { rawDelayMs := Option.none
        cappedDelayMs := Option.none
        baseChartValueMs := Option.none
        expectedDelayMs := Option.none
        minDelayMs := Option.none
        maxDelayMs := Option.none
        randomizedMinValueMs := Option.none
        randomizedExpectedValueMs := Option.none
        randomizedMaxValueMs := Option.none
        chartedValueMs := Option.none } ∧
    (⟨"r", "Retry Index (1.." ++ toString (toNatVal context.config.maxRetries) ++ ")",
        BindingValue.str "symbolic", true⟩ : VariableBinding) ∈
      (buildChartMathExplanationModel context).variableBindings := by
  refine ⟨?_, ?_, ?_⟩ <;> simp only [buildChartMathExplanationModel, hap] <;> simp

/-! ## Claim C8 -/

/-- C8: a supplied `activePoint` is kept only when its retry is an integer in
`[1, maxRetries]` and its `valueMs` is finite (so every active point is
discarded when `maxRetries = 0`); a kept point defaults missing/non-finite
`minMs`/`maxMs` to `valueMs`; and when the point is absent or discarded the
builder's `activeRetry` is null, every `resolved` field (including
`chartedValueMs`) is null, and the retry-index binding carries the value
`"symbolic"`. -/
theorem activePoint_normalization (context : ChartMathExplanationContext)
    (h : validateConfig context.config = []) (p : RawActivePoint) (n : ℕ) :
    (normalizeActivePoint (Option.some p) n =
      (if isIntegerNumber p.retry ∧ 1 ≤ finVal p.retry ∧ finVal p.retry ≤ (n : ℚ) ∧
          isFiniteNumber p.valueMs then
        Option.some
          { retry := toNatVal p.retry
            valueMs := finVal p.valueMs
            minMs := if isFiniteNumber p.minMs then finVal p.minMs else finVal p.valueMs
            maxMs := if isFiniteNumber p.maxMs then finVal p.maxMs else finVal p.valueMs }
      else Option.none)) ∧
    (n = 0 → normalizeActivePoint (Option.some p) n = Option.none) ∧
    (normalizeActivePoint context.activePoint (toNatVal context.config.maxRetries) =
        Option.none →
      ∀ m, buildChartMathExplanation context = Except.ok m →
        m.activeRetry = Option.none ∧
        m.resolved =
          { rawDelayMs := Option.none
            cappedDelayMs := Option.none
            baseChartValueMs := Option.none
            expectedDelayMs := Option.none
            minDelayMs := Option.none
            maxDelayMs := Option.none
            randomizedMinValueMs := Option.none
            randomizedExpectedValueMs := Option.none
            randomizedMaxValueMs := Option.none
            chartedValueMs := Option.none } ∧
        (⟨"r", "Retry Index (1.." ++ toString (toNatVal context.config.maxRetries) ++ ")",
            BindingValue.str "symbolic", true⟩ : VariableBinding) ∈ m.variableBindings) := by
  refine ⟨normalizeActivePoint_some_iff p n, ?_, ?_⟩
  · intro hn
    subst hn
    rw [normalizeActivePoint_some_iff, if_neg]
    rintro ⟨-, hge, hle, -⟩
    rw [Nat.cast_zero] at hle
    linarith
  · intro hnone m hm
    rw [buildChartMathExplanation_ok context h] at hm
    have hmeq := Except.ok.inj hm
    subst hmeq
    exact buildChartMathExplanationModel_inactive context hnone

/-- Fixed-strategy config with `maxRetries = 0`. -/
def exampleZeroRetryConfig : BackoffConfig :=
  { strategy := JVal.str "fixed"
    initialDelayMs := JVal.num (JSNumber.fin 100)
    maxRetries := JVal.num (JSNumber.fin 0)
    maxDelayMs := JVal.null
    factor := JVal.undef
    incrementMs := JVal.undef
    jitter := JVal.undef }

/-- A raw chart point at retry 1 with value 100 and missing min/max. -/
def exampleRawActivePoint : RawActivePoint :=
  { retry := JVal.num (JSNumber.fin 1)
    valueMs := JVal.num (JSNumber.fin 100)
    minMs := JVal.undef
    maxMs := JVal.undef }

/-- A context with `maxRetries = 0` and a supplied active point. -/
def exampleZeroRetryContext : ChartMathExplanationContext :=
  { config := exampleZeroRetryConfig
    chartMode := JVal.undef
    chartSeriesMode := JVal.undef
    activePoint := Option.some exampleRawActivePoint }

theorem activePoint_normalization_witness :
    normalizeActivePoint (Option.some exampleRawActivePoint) 0 = Option.none ∧
    (buildChartMathExplanationModel exampleZeroRetryContext).activeRetry = Option.none :=
  ⟨(activePoint_normalization exampleZeroRetryContext (by decide)
      exampleRawActivePoint 0).2.1 rfl,
    ((activePoint_normalization exampleZeroRetryContext (by decide)
        exampleRawActivePoint 0).2.2 (by decide) _
      (buildChartMathExplanation_ok exampleZeroRetryContext (by decide))).1⟩

/-! ## Claim C7 -/

/-- C7: for a validated config and a kept active point at retry `r`, the
explanation builder's independently recomputed `resolved.rawDelayMs`,
`resolved.cappedDelayMs`, `resolved.minDelayMs`, `resolved.expectedDelayMs`
and `resolved.maxDelayMs` equal the corresponding values of the point at
1-based index `r` of `generateSchedule`'s output (the capped delay being the
cap rule applied to that point's raw delay). -/
theorem builder_matches_schedule (context : ChartMathExplanationContext)
    (h : validateConfig context.config = [])
    (ap : ChartMathActivePoint)
    (hap : normalizeActivePoint context.activePoint (toNatVal context.config.maxRetries) =
      Option.some ap)
    (pts : List RetryPoint) (hpts : generateSchedule context.config = Except.ok pts)
    (p : RetryPoint) (hp : pts[ap.retry - 1]? = some p)
    (m : ChartMathExplanationModel) (hm : buildChartMathExplanation context = Except.ok m) :
    m.activeRetry = Option.some ap.retry ∧
    m.resolved.rawDelayMs = Option.some p.rawDelayMs ∧
    m.resolved.cappedDelayMs = Option.some (pointCappedDelay context.config p) ∧
    m.resolved.minDelayMs = Option.some p.minDelayMs ∧
    m.resolved.expectedDelayMs = Option.some p.expectedDelayMs ∧
    m.resolved.maxDelayMs = Option.some p.maxDelayMs := by
  rw [buildChartMathExplanation_ok context h] at hm
  have hmeq := Except.ok.inj hm
  subst hmeq
  obtain ⟨hr1, hrn⟩ := normalizeActivePoint_retry_bounds context.activePoint _ ap hap
  obtain ⟨hi, hpe⟩ := generateSchedule_point context.config h pts hpts (ap.retry - 1) p hp
  have hidx : 1 + (ap.retry - 1) = ap.retry := by omega
  rw [hidx] at hpe
  have hraw : p.rawDelayMs = loopRawDelay context.config ap.retry := by rw [hpe]
  have hminf : p.minDelayMs = (toDelayRange (loopCappedDelay context.config ap.retry)
      (resolveJitterType context.config.jitter)).minDelayMs := by rw [hpe]
  have hexpf : p.expectedDelayMs = (toDelayRange (loopCappedDelay context.config ap.retry)
      (resolveJitterType context.config.jitter)).expectedDelayMs := by rw [hpe]
  have hmaxf : p.maxDelayMs = (toDelayRange (loopCappedDelay context.config ap.retry)
      (resolveJitterType context.config.jitter)).maxDelayMs := by rw [hpe]
  cases hnn : isNullish context.config.maxDelayMs with
  | false =>
    have hpc : pointCappedDelay context.config p = loopCappedDelay context.config ap.retry := by
      rw [pointCappedDelay, hnn, loopCappedDelay, hnn, hraw]
    refine ⟨?_, ?_, ?_, ?_, ?_, ?_⟩ <;>
      simp [buildChartMathExplanationModel, hap, hnn, hraw, hpc, hminf, hexpf, hmaxf,
        rawDelayAtRetry_eq_loopRawDelay, loopCappedDelay, pointCappedDelay]
  | true =>
    have hpc : pointCappedDelay context.config p = loopCappedDelay context.config ap.retry := by
      rw [pointCappedDelay, hnn, loopCappedDelay, hnn, hraw]
    refine ⟨?_, ?_, ?_, ?_, ?_, ?_⟩ <;>
      simp [buildChartMathExplanationModel, hap, hnn, hraw, hpc, hminf, hexpf, hmaxf,
        rawDelayAtRetry_eq_loopRawDelay, loopCappedDelay, pointCappedDelay]

/-- A context over `exampleFixedConfig` with an active point at retry 1. -/
def exampleActiveContext : ChartMathExplanationContext :=
  { config := exampleFixedConfig
    chartMode := JVal.undef
    chartSeriesMode := JVal.undef
    activePoint := Option.some exampleRawActivePoint }

theorem builder_matches_schedule_witness :
    (buildChartMathExplanationModel exampleActiveContext).resolved.rawDelayMs =
      Option.some exampleFixedPoint.rawDelayMs ∧
    (buildChartMathExplanationModel exampleActiveContext).resolved.expectedDelayMs =
      Option.some exampleFixedPoint.expectedDelayMs :=
  ⟨(builder_matches_schedule exampleActiveContext (by decide)
      { retry := 1, valueMs := 100, minMs := 100, maxMs := 100 } (by decide)
      [exampleFixedPoint] exampleFixedSchedule exampleFixedPoint rfl
      (buildChartMathExplanationModel exampleActiveContext)
      (buildChartMathExplanation_ok exampleActiveContext (by decide))).2.1,
    (builder_matches_schedule exampleActiveContext (by decide)
      { retry := 1, valueMs := 100, minMs := 100, maxMs := 100 } (by decide)
      [exampleFixedPoint] exampleFixedSchedule exampleFixedPoint rfl
      (buildChartMathExplanationModel exampleActiveContext)
      (buildChartMathExplanation_ok exampleActiveContext (by decide))).2.2.2.2.1⟩
